import Mathlib

/-!
# Beacon-chat: verification of the spec against the code

Shallow embedding of the beacon-chat messenger (src/src/lib/storage.ts, the
crypto module, the MessagingContext provider, the relay hook and the
supabase relay edge function) together with proofs settling the frozen
claims about it.

IndexedDB object stores with a `keyPath` are modelled as lists with
put-replaces-by-key semantics; the relay's postgres table is modelled as a
list of envelope rows.
-/

namespace BeaconChat

/-- Message delivery status, from the `Message` interface in storage.ts
(`status: 'pending' | 'sent' | 'delivered' | 'read' | 'failed'`). -/
inductive MsgStatus
  | pending
  | sent
  | delivered
  | read
  | failed
deriving DecidableEq, Repr

/-- Message direction (`direction: 'sent' | 'received'`). -/
inductive Direction
  | sent
  | received
deriving DecidableEq, Repr

/-- Delivery method (`deliveryMethod?: 'direct' | 'p2p' | 'relay' | 'store-forward'`). -/
inductive DeliveryMethod
  | direct
  | p2p
  | relay
  | storeForward
deriving DecidableEq, Repr

/-- The rank of a status in the monotonic order claimed by the spec
(pending → sent → delivered → read); `failed` is ranked alongside the
terminal states only for stating the order, it is reachable from
pending/sent per the spec. -/
def statusRank : MsgStatus → Nat
  | .pending => 0
  | .sent => 1
  | .delivered => 2
  | .read => 3
  | .failed => 4

/-- A stored message, from the `Message` interface in storage.ts.  The
ciphertext and iv are kept as the byte-level values produced by the crypto
module (the base64 transport encoding, a bijection on byte strings, is
omitted). -/
structure Message where
  id : String
  contactId : String
  content : String
  encrypted : List Nat
  iv : Nat
  signature : String
  timestamp : Nat
  direction : Direction
  status : MsgStatus
  deliveryMethod : Option DeliveryMethod
deriving DecidableEq, Repr

/-- IndexedDB `put` on an object store with `keyPath` given by `key`:
replaces the record with the same key if present, otherwise inserts. -/
def putBy (key : α → String) (store : List α) (a : α) : List α :=
  if store.any (fun x => key x == key a) then
    store.map (fun x => if key x == key a then a else x)
  else store ++ [a]

/-- IndexedDB `get` by primary key. -/
def getBy (key : α → String) (store : List α) (id : String) : Option α :=
  store.find? (fun x => key x == id)

/-- `database.put('messages', m)` — the messages store has `keyPath: 'id'`. -/
def msgPut (store : List Message) (m : Message) : List Message :=
  putBy (·.id) store m

/-- `database.get('messages', id)`. -/
def msgGet (store : List Message) (id : String) : Option Message :=
  getBy (·.id) store id

/-- `updateMessageStatus(id, status)` from storage.ts: reads the message,
and if present overwrites its status field and puts it back; if absent it
does nothing. -/
def updateMessageStatus (id : String) (status : MsgStatus) (store : List Message) :
    List Message :=
  match msgGet store id with
  | none => store
  | some m => msgPut store { m with status := status }

theorem getBy_putBy_self (key : α → String) (store : List α) (a : α) :
    getBy key (putBy key store a) (key a) = some a := by
  induction store with
  | nil => simp [getBy, putBy]
  | cons x xs ih =>
    by_cases hx : key x == key a
    · simp only [putBy, List.any_cons, hx, Bool.true_or, if_true, List.map_cons,
        getBy, List.find?_cons]
      simp [hx]
    · simp only [putBy, List.any_cons, hx, Bool.false_or, getBy] at ih ⊢
      by_cases hxs : xs.any (fun x => key x == key a)
      · simp only [hxs, if_true, List.map_cons, hx, if_false, List.find?_cons]
        simp only [hxs, if_true] at ih
        simpa [hx] using ih
      · simp only [hxs, if_false, List.cons_append, List.find?_cons]
        simp only [hxs, if_false] at ih
        simpa [hx] using ih

theorem msgGet_some_id {store : List Message} {id : String} {m : Message}
    (h : msgGet store id = some m) : m.id = id := by
  have := List.find?_some h
  simpa [getBy] using (by exact_mod_cast of_decide_eq_true (by simpa using this) : m.id = id)

/-- C1 (counterexample): with a single stored message whose status is
`read`, a call `updateMessageStatus "m1" pending` overwrites the stored
status with `pending` — a regression from `read`, which the claim says is
rejected or a no-op. -/
theorem c1_status_can_regress :
    (msgGet
      (updateMessageStatus "m1" .pending
        [{ id := "m1", contactId := "c1", content := "hi", encrypted := [], iv := 0,
           signature := "", timestamp := 0, direction := .sent, status := .read,
           deliveryMethod := none }])
      "m1").map Message.status = some .pending ∧
    statusRank .pending < statusRank .read := by
  constructor
  · rfl
  · decide

/-- C1 (amended): `updateMessageStatus` performs no monotonicity check.
For every store, and every id present in it with stored record `m`, the
call unconditionally overwrites the stored status with `newStatus` —
downgrades from `delivered` or `read` included; only an absent id yields a
no-op. -/
theorem c1_updateMessageStatus_overwrites (store : List Message) (id : String)
    (st : MsgStatus) (m : Message) (h : msgGet store id = some m) :
    msgGet (updateMessageStatus id st store) id = some { m with status := st } := by
  have hid : m.id = id := msgGet_some_id h
  have : ({ m with status := st } : Message).id = id := hid
  rw [updateMessageStatus, h]
  simp only [msgPut, msgGet]
  rw [← this]
  exact getBy_putBy_self _ store _

/-- C1 (witness for the amended theorem). -/
theorem c1_updateMessageStatus_overwrites_witness :
    msgGet
      (updateMessageStatus "m1" .pending
        [{ id := "m1", contactId := "c1", content := "hi", encrypted := [], iv := 0,
           signature := "", timestamp := 0, direction := .sent, status := .read,
           deliveryMethod := none }])
      "m1" =
      some { id := "m1", contactId := "c1", content := "hi", encrypted := [], iv := 0,
             signature := "", timestamp := 0, direction := .sent, status := .pending,
             deliveryMethod := none } :=
  c1_updateMessageStatus_overwrites _ _ _ _ (by rfl)

/-- C10: for an id not present in the messages store,
`updateMessageStatus` completes without error and leaves the store
entirely unchanged — no record is created and none is modified. -/
theorem c10_updateMessageStatus_absent_id_noop (store : List Message) (id : String)
    (st : MsgStatus) (h : msgGet store id = none) :
    updateMessageStatus id st store = store := by
  rw [updateMessageStatus, h]

/-- C10 (witness). -/
theorem c10_updateMessageStatus_absent_id_noop_witness :
    updateMessageStatus "nope" .read
      [{ id := "m1", contactId := "c1", content := "hi", encrypted := [], iv := 0,
         signature := "", timestamp := 0, direction := .sent, status := .sent,
         deliveryMethod := none }] =
      [{ id := "m1", contactId := "c1", content := "hi", encrypted := [], iv := 0,
         signature := "", timestamp := 0, direction := .sent, status := .sent,
         deliveryMethod := none }] :=
  c10_updateMessageStatus_absent_id_noop _ _ _ (by rfl)

/-! ## Crypto engine (the crypto module)

`encryptMessage`/`decryptMessage` wrap Web Crypto primitives (ECDH P-256
key agreement feeding an AES-GCM symmetric cipher).  The platform
primitives are modelled algebraically, faithful to their contracts and to
the wrapper structure of the source: ECDH as scalar multiplication in a
commutative group (public key = secret scalar times a generator, shared
secret = own scalar times the peer's public point, reduced modulo the
group order), and AES-GCM as a keystream cipher XORed over the byte
stream.  The iv, drawn by `crypto.getRandomValues` in the source, is an
explicit parameter here (randomness as input); the base64 transport
encoding (`btoa`/`atob`), a bijection on byte strings, is omitted. -/

/-- Order of the modelled curve group. -/
def curveOrder : Nat := 2147483647

/-- Generator of the modelled curve group. -/
def curveGen : Nat := 7

/-- Public key of a secret scalar: sk · G in the modelled group
(`exportPublicKey` of the pair from `generateIdentityKeyPair`). -/
def derivePublicKey (sk : Nat) : Nat := sk * curveGen % curveOrder

/-- `deriveSharedKey(privateKey, publicKey)` from the crypto module: the
ECDH shared secret, own scalar times the peer's public point. -/
def deriveSharedKey (privateKey publicKey : Nat) : Nat :=
  privateKey * publicKey % curveOrder

/-- The AES-GCM keystream block at position `i` for a given key and iv
(any fixed pseudorandom function works for the model). -/
def keystream (key iv i : Nat) : Nat := (key + 31 * iv + 101 * i) % 256

/-- The keystream cipher core: XOR each byte with the keystream, carrying
the byte position. Encryption and decryption are this same pass. -/
def xorStream (key iv i : Nat) : List Nat → List Nat
  | [] => []
  | b :: bs => (b ^^^ keystream key iv i) :: xorStream key iv (i + 1) bs

/-- `new TextEncoder().encode(message)`. -/
def encodeText (s : String) : List Nat := s.toList.map Char.toNat

/-- `new TextDecoder().decode(bytes)`. -/
def decodeText (bs : List Nat) : String := (bs.map Char.ofNat).asString

/-- `encryptMessage(message, senderPrivateKey, recipientPublicKey)` from
the crypto module: derive the shared key from the sender's private key and
the recipient's public key, encode the plaintext, encrypt under the shared
key with a fresh iv, and return ciphertext and iv. -/
def encryptMessage (message : String) (senderPrivateKey recipientPublicKey iv : Nat) :
    List Nat × Nat :=
  let sharedKey := deriveSharedKey senderPrivateKey recipientPublicKey
  (xorStream sharedKey iv 0 (encodeText message), iv)

/-- `decryptMessage(encrypted, iv, recipientPrivateKey, senderPublicKey)`
from the crypto module: derive the shared key from the recipient's private
key and the sender's public key, decrypt, and decode the plaintext. -/
def decryptMessage (encrypted : List Nat) (iv recipientPrivateKey senderPublicKey : Nat) :
    String :=
  let sharedKey := deriveSharedKey recipientPrivateKey senderPublicKey
  decodeText (xorStream sharedKey iv 0 encrypted)

theorem deriveSharedKey_comm (skA skB : Nat) :
    deriveSharedKey skA (derivePublicKey skB) = deriveSharedKey skB (derivePublicKey skA) := by
  simp only [deriveSharedKey, derivePublicKey, Nat.mul_mod_mod]
  ring_nf

theorem xorStream_involutive (key iv : Nat) (bs : List Nat) (i : Nat) :
    xorStream key iv i (xorStream key iv i bs) = bs := by
  induction bs generalizing i with
  | nil => rfl
  | cons b bs ih =>
    simp only [xorStream, ih, Nat.xor_assoc, Nat.xor_self, Nat.xor_zero]

theorem decodeText_encodeText (s : String) : decodeText (encodeText s) = s := by
  simp only [decodeText, encodeText, List.map_map]
  have : (Char.ofNat ∘ Char.toNat) = id := funext fun c => Char.ofNat_toNat c
  rw [this, List.map_id, String.asString_toList]

/-- C2: encryption round trip.  For every plaintext `m`, every pair of key
pairs `(skA, derivePublicKey skA)` and `(skB, derivePublicKey skB)` and
every iv, decrypting the (ciphertext, iv) produced by
`encryptMessage m skA pkB` with `decryptMessage _ _ skB pkA` returns
exactly `m`. -/
theorem c2_encrypt_decrypt_roundtrip (m : String) (skA skB iv : Nat) :
    decryptMessage (encryptMessage m skA (derivePublicKey skB) iv).1
      (encryptMessage m skA (derivePublicKey skB) iv).2 skB (derivePublicKey skA) = m := by
  simp only [encryptMessage, decryptMessage]
  rw [deriveSharedKey_comm skB skA, xorStream_involutive, decodeText_encodeText]

/-! ## Relay edge function (supabase/functions/relay-message/index.ts)

The `pending_messages` postgres table is modelled as a list of rows in
insertion order plus a counter for the server-assigned id; the handler is
a function of the parsed request body, the table and the current time.
A JSON field that may be absent is an `Option`; JS falsiness of a string
field (`!x`) is absence or emptiness.  A response's `status` is the HTTP
status (200 when the source builds a `Response` without one); a JSON key
absent from the response body is `none`.  The db-error branches (500) are
outside the model: storage succeeds. -/

/-- A row of `pending_messages` (see the migration): server-assigned id,
the four payload fields, optional signature, `created_at`,
`expires_at` (default: creation + 7 days), `delivered_at`,
`delivery_attempts`. -/
structure RelayEnvelope where
  id : Nat
  senderPublicKey : String
  recipientPublicKey : String
  encryptedContent : String
  iv : String
  signature : Option String
  createdAt : Nat
  expiresAt : Nat
  deliveredAt : Option Nat
  deliveryAttempts : Nat
deriving DecidableEq, Repr

/-- The relay's backing table plus the id sequence. -/
structure RelayStore where
  rows : List RelayEnvelope
  nextId : Nat
deriving DecidableEq, Repr

/-- The parsed JSON request body (`{ action, ...data }`). -/
structure RelayRequest where
  action : Option String
  senderPublicKey : Option String
  recipientPublicKey : Option String
  encryptedContent : Option String
  iv : Option String
  signature : Option String
  messageId : Option Nat
deriving Repr

/-- The JSON response together with its HTTP status. -/
structure RelayResponse where
  status : Nat
  success : Option Bool
  error : Option String
  messageId : Option Nat
  messages : List RelayEnvelope
deriving DecidableEq, Repr

/-- JS falsiness of a possibly-absent string field: `!x` is true when the
field is missing or the empty string. -/
def falsy : Option String → Bool
  | none => true
  | some s => s.isEmpty

/-- `7 * 24 * 60 * 60 * 1000` milliseconds, as in the fetch query. -/
def sevenDaysMs : Nat := 604800000

/-- The fetch query: rows for the recipient with `delivered_at` null and
`expires_at < now + 7 days` (sic — this is the filter the source writes),
ordered by `created_at` ascending. -/
def fetchQuery (rows : List RelayEnvelope) (pk : String) (now : Nat) : List RelayEnvelope :=
  (rows.filter fun e =>
      e.recipientPublicKey == pk && e.deliveredAt.isNone &&
        decide (e.expiresAt < now + sevenDaysMs)).mergeSort
    (fun a b => a.createdAt ≤ b.createdAt)

/-- The acknowledge update: set `delivered_at = now` and
`delivery_attempts = 1` on every row whose id matches. -/
def ackUpdate (rows : List RelayEnvelope) (mid : Nat) (now : Nat) : List RelayEnvelope :=
  rows.map fun e =>
    if e.id == mid then { e with deliveredAt := some now, deliveryAttempts := 1 } else e

/-- The relay edge function's request handler: the `switch (action)` of
the source, returning the response and the updated table. -/
def relayHandler (req : RelayRequest) (store : RelayStore) (now : Nat) :
    RelayResponse × RelayStore :=
  match req.action with
  | some "send" =>
    if falsy req.senderPublicKey || falsy req.recipientPublicKey ||
        falsy req.encryptedContent || falsy req.iv then
      ({ status := 400, success := none, error := some "Missing required fields",
         messageId := none, messages := [] }, store)
    else
      let env : RelayEnvelope :=
        { id := store.nextId,
          senderPublicKey := req.senderPublicKey.getD "",
          recipientPublicKey := req.recipientPublicKey.getD "",
          encryptedContent := req.encryptedContent.getD "",
          iv := req.iv.getD "",
          signature := req.signature,
          createdAt := now,
          expiresAt := now + sevenDaysMs,
          deliveredAt := none,
          deliveryAttempts := 0 }
      ({ status := 200, success := some true, error := none,
         messageId := some store.nextId, messages := [] },
       { rows := store.rows ++ [env], nextId := store.nextId + 1 })
  | some "fetch" =>
    if falsy req.recipientPublicKey then
      ({ status := 400, success := none, error := some "Missing recipientPublicKey",
         messageId := none, messages := [] }, store)
    else
      ({ status := 200, success := none, error := none, messageId := none,
         messages := fetchQuery store.rows (req.recipientPublicKey.getD "") now }, store)
  | some "acknowledge" =>
    match req.messageId with
    | none =>
      ({ status := 400, success := none, error := some "Missing messageId",
         messageId := none, messages := [] }, store)
    | some mid =>
      ({ status := 200, success := some true, error := none, messageId := none,
         messages := [] },
       { store with rows := ackUpdate store.rows mid now })
  | _ =>
    ({ status := 400, success := none, error := some "Unknown action",
       messageId := none, messages := [] }, store)

/-- C3 (evidence): an envelope whose `expires_at` has already passed at
the time of the call is still returned by the fetch action.  With one
stored envelope for "bobPk" expiring at time 5, a fetch at time 1000
returns it, because the source filters `expires_at < now + 7 days`
instead of excluding passed expiries. -/
theorem c3_fetch_returns_expired_envelope :
    (relayHandler
        { action := some "fetch", senderPublicKey := none,
          recipientPublicKey := some "bobPk", encryptedContent := none, iv := none,
          signature := none, messageId := none }
        { rows := [{ id := 0, senderPublicKey := "alicePk", recipientPublicKey := "bobPk",
                     encryptedContent := "ct", iv := "iv", signature := none,
                     createdAt := 0, expiresAt := 5, deliveredAt := none,
                     deliveryAttempts := 0 }],
          nextId := 1 }
        1000).1.messages.map RelayEnvelope.expiresAt = [5] ∧ (5 : Nat) < 1000 := by
  constructor
  · have hne : "bobPk".isEmpty = false := by decide
    simp [relayHandler, fetchQuery, falsy, sevenDaysMs, hne, List.filter]
  · decide

/-- C8: relay submit validation.  For every request: if the action is
"send" and any of the four required fields is missing or empty, the
response is 400 with an error body; if the action is "send" and all four
are present and non-empty, the response reports success together with the
server-assigned envelope id; and a request whose action is none of
"send"/"fetch"/"acknowledge" gets a 400 error response. -/
theorem c8_send_validation (req : RelayRequest) (store : RelayStore) (now : Nat) :
    (req.action = some "send" →
      ((falsy req.senderPublicKey || falsy req.recipientPublicKey ||
          falsy req.encryptedContent || falsy req.iv) = true →
        (relayHandler req store now).1.status = 400 ∧
          (relayHandler req store now).1.error.isSome = true) ∧
      ((falsy req.senderPublicKey || falsy req.recipientPublicKey ||
          falsy req.encryptedContent || falsy req.iv) = false →
        (relayHandler req store now).1.success = some true ∧
          (relayHandler req store now).1.messageId = some store.nextId)) ∧
    (req.action ≠ some "send" → req.action ≠ some "fetch" →
      req.action ≠ some "acknowledge" →
      (relayHandler req store now).1.status = 400 ∧
        (relayHandler req store now).1.error.isSome = true) := by
  constructor
  · intro ha
    constructor
    · intro hbad
      simp [relayHandler, ha, hbad]
    · intro hgood
      simp [relayHandler, ha, hgood]
  · intro h1 h2 h3
    unfold relayHandler
    split <;> simp_all

/-- C8 (witness): at concrete inputs — a send with an empty iv gets 400
with an error; a complete send succeeds with the assigned id; an unknown
action gets 400 with an error. -/
theorem c8_send_validation_witness :
    ((relayHandler
        { action := some "send", senderPublicKey := some "a", recipientPublicKey := some "b",
          encryptedContent := some "c", iv := some "", signature := none, messageId := none }
        { rows := [], nextId := 0 } 7).1.status = 400 ∧
      (relayHandler
        { action := some "send", senderPublicKey := some "a", recipientPublicKey := some "b",
          encryptedContent := some "c", iv := some "", signature := none, messageId := none }
        { rows := [], nextId := 0 } 7).1.error.isSome = true) ∧
    ((relayHandler
        { action := some "send", senderPublicKey := some "a", recipientPublicKey := some "b",
          encryptedContent := some "c", iv := some "d", signature := none, messageId := none }
        { rows := [], nextId := 0 } 7).1.success = some true ∧
      (relayHandler
        { action := some "send", senderPublicKey := some "a", recipientPublicKey := some "b",
          encryptedContent := some "c", iv := some "d", signature := none, messageId := none }
        { rows := [], nextId := 0 } 7).1.messageId = some 0) ∧
    ((relayHandler
        { action := some "frobnicate", senderPublicKey := none, recipientPublicKey := none,
          encryptedContent := none, iv := none, signature := none, messageId := none }
        { rows := [], nextId := 0 } 7).1.status = 400 ∧
      (relayHandler
        { action := some "frobnicate", senderPublicKey := none, recipientPublicKey := none,
          encryptedContent := none, iv := none, signature := none, messageId := none }
        { rows := [], nextId := 0 } 7).1.error.isSome = true) :=
  ⟨((c8_send_validation _ { rows := [], nextId := 0 } 7).1 rfl).1 (by decide),
   ((c8_send_validation _ { rows := [], nextId := 0 } 7).1 rfl).2 (by decide),
   (c8_send_validation _ { rows := [], nextId := 0 } 7).2 (by decide) (by decide) (by decide)⟩

/-- The per-envelope delivered flag of the relay table: which envelope ids
are marked delivered. -/
def deliveredFlags (rows : List RelayEnvelope) : List (Nat × Bool) :=
  rows.map fun e => (e.id, e.deliveredAt.isSome)

/-- An acknowledge request for a given envelope id. -/
def ackRequest (mid : Nat) : RelayRequest :=
  { action := some "acknowledge", senderPublicKey := none, recipientPublicKey := none,
    encryptedContent := none, iv := none, signature := none, messageId := some mid }

/-- C9: relay acknowledge is idempotent and never fails for benign
inputs.  For every store, envelope id and times: the response is a 200
success — in particular also when the id is absent from the store or the
envelope is already marked delivered — and acknowledging the same id a
second time leaves every envelope's delivered state exactly as after the
first acknowledge. -/
theorem c9_acknowledge_idempotent (store : RelayStore) (mid t1 t2 : Nat) :
    (relayHandler (ackRequest mid) store t1).1.success = some true ∧
    (relayHandler (ackRequest mid) store t1).1.status = 200 ∧
    deliveredFlags
        ((relayHandler (ackRequest mid)
            ((relayHandler (ackRequest mid) store t1).2) t2).2.rows) =
      deliveredFlags ((relayHandler (ackRequest mid) store t1).2.rows) := by
  refine ⟨rfl, rfl, ?_⟩
  simp only [relayHandler, ackRequest, ackUpdate, deliveredFlags, List.map_map]
  apply List.map_congr_left
  intro e _
  by_cases h : e.id == mid <;> simp [h, Function.comp]

/-! ## MessagingContext provider and the relay hook

The React provider's state is a record; its callbacks are state
transformers.  `crypto.randomUUID()` and `Date.now()` are explicit
parameters.  JS absence (`null`/`undefined` guards) is `Option`. -/

/-- `connectionType: 'online' | 'p2p' | 'unknown'` on a contact. -/
inductive ConnType
  | online
  | p2p
  | unknown
deriving DecidableEq, Repr

/-- A contact (the `Contact` interface in storage.ts). -/
structure Contact where
  id : String
  publicKey : String
  signingPublicKey : String
  displayName : String
  lastSeen : Option Nat
  connectionType : Option ConnType
  isGateway : Option Bool
  addedAt : Nat
deriving DecidableEq, Repr

/-- A queued outbound message (the `QueuedMessage` interface in
storage.ts).  Ciphertext and iv as in `Message`. -/
structure QueuedMessage where
  id : String
  recipientId : String
  recipientPublicKey : String
  encrypted : List Nat
  iv : Nat
  signature : String
  timestamp : Nat
  attempts : Nat
  lastAttempt : Option Nat
deriving DecidableEq, Repr

/-- `type ConnectionMode = 'online' | 'offline' | 'p2p' | 'hybrid'`. -/
inductive ConnectionMode
  | online
  | offline
  | p2p
  | hybrid
deriving DecidableEq, Repr

/-- JS `ToInt32`: wrap an integer into the signed 32-bit range. -/
def toInt32 (n : Int) : Int := (n + 2147483648) % 4294967296 - 2147483648

/-- One iteration of the hash loop in `generateIdentityId`:
`hash = ((hash << 5) - hash) + char; hash = hash & hash` — the shift
operates on (and truncates to) int32, the final `& hash` coerces the
exact sum back to int32. -/
def hashStep (h : Int) (c : Nat) : Int := toInt32 (toInt32 (h * 32) - h + c)

/-- The hash accumulated over the char codes of the key string. -/
def hashString (s : String) : Int := s.toList.foldl (fun h c => hashStep h c.toNat) 0

/-- `generateIdentityId(publicKey)` from the crypto module:
`Math.abs(hash).toString(36).toUpperCase().slice(0, 8)`. -/
def generateIdentityId (publicKey : String) : String :=
  (((Nat.toDigits 36 (hashString publicKey).natAbs).map Char.toUpper).take 8).asString

/-- The provider's state: the in-memory React state slices the claims
touch, the corresponding durable IndexedDB stores, and the held key
material (the secret scalars of the loaded key pairs; `hasIdentity` is
the `state.identity` guard). -/
structure ProviderState where
  contacts : List Contact
  contactsStore : List Contact
  messagesMem : List (String × List Message)
  messagesStore : List Message
  queuedMessages : List QueuedMessage
  queueStore : List QueuedMessage
  activeContactId : Option String
  hasIdentity : Bool
  encryptionKey : Option Nat
  signingKey : Option Nat
  isOnline : Bool
  isP2PScanning : Bool
  connectionMode : ConnectionMode
deriving DecidableEq, Repr

/-- The provider's initial `useState` value: `connectionMode: 'offline'`
is hardcoded while `isOnline: navigator.onLine` reads the platform. -/
def initState (navigatorOnLine : Bool) : ProviderState :=
  { contacts := [], contactsStore := [], messagesMem := [], messagesStore := [],
    queuedMessages := [], queueStore := [], activeContactId := none,
    hasIdentity := false, encryptionKey := none, signingKey := none,
    isOnline := navigatorOnLine, isP2PScanning := false, connectionMode := .offline }

/-- The `'online'` window-event handler. -/
def handleOnline (st : ProviderState) : ProviderState :=
  { st with isOnline := true,
            connectionMode := if st.isP2PScanning then .hybrid else .online }

/-- The `'offline'` window-event handler. -/
def handleOffline (st : ProviderState) : ProviderState :=
  { st with isOnline := false,
            connectionMode := if st.isP2PScanning then .p2p else .offline }

/-- `startP2PScan` (the connection-state part; the simulated device
discovery does not touch these fields). -/
def startP2PScan (st : ProviderState) : ProviderState :=
  { st with isP2PScanning := true,
            connectionMode := if st.isOnline then .hybrid else .p2p }

/-- `stopP2PScan` (the connection-state part). -/
def stopP2PScan (st : ProviderState) : ProviderState :=
  { st with isP2PScanning := false,
            connectionMode := if st.isOnline then .online else .offline }

/-- The input-change events driving the connection state. -/
inductive ConnEvent
  | online
  | offline
  | startScan
  | stopScan
deriving DecidableEq, Repr

/-- Dispatch of an input-change event to its handler. -/
def connStep (st : ProviderState) : ConnEvent → ProviderState
  | .online => handleOnline st
  | .offline => handleOffline st
  | .startScan => startP2PScan st
  | .stopScan => stopP2PScan st

/-- The connection-mode table of the spec (§4.4), as a function of
(reachable, discovering). -/
def modeTable : Bool → Bool → ConnectionMode
  | false, false => .offline
  | false, true => .p2p
  | true, false => .online
  | true, true => .hybrid

/-- `addContact(publicKey, signingKey, displayName)` from the provider:
derive the id from the public key, `saveContact` (an IndexedDB put keyed
by id) into the durable store, and append to the in-memory list. -/
def addContact (st : ProviderState) (publicKey signingKey displayName : String)
    (now : Nat) : ProviderState :=
  let id := generateIdentityId publicKey
  let contact : Contact :=
    { id, publicKey, signingPublicKey := signingKey, displayName,
      lastSeen := none, connectionType := some .unknown, isGateway := none,
      addedAt := now }
  { st with contactsStore := putBy (·.id) st.contactsStore contact,
            contacts := st.contacts ++ [contact] }

/-- `importKey` of a transmitted public-key string into the modelled
group point (the base64/SPKI parsing collapsed to a byte decode). -/
def decodeKey (s : String) : Nat := s.toList.foldl (fun n c => n * 256 + c.toNat) 0

/-- ECDSA `signMessage` modelled as a keyed digest of the ciphertext. -/
def signBytes (data : List Nat) (sk : Nat) : String :=
  (Nat.toDigits 16 (data.foldl (fun a b => a * 131 + b) sk)).asString

/-- Append a message under a contact key in the in-memory record
(`{ ...prev.messages, [id]: [...(prev.messages[id] || []), message] }`). -/
def recordAppend (rec : List (String × List Message)) (k : String) (m : Message) :
    List (String × List Message) :=
  if rec.any (fun p => p.1 == k) then
    rec.map fun p => if p.1 == k then (p.1, p.2 ++ [m]) else p
  else rec ++ [(k, [m])]

/-- What a `sendMessage` call did: `completed` means the message was
persisted (and queued when offline); `silentReturn` is an early `return`
with no thrown error, no state change and no other observable signal. -/
inductive SendOutcome
  | completed
  | silentReturn
deriving DecidableEq, Repr

/-- `sendMessage(content)` from the provider.  Guards: a missing active
contact id, identity or encryption key pair returns silently; a contact
lookup miss returns silently.  Otherwise: encrypt for the recipient, sign
when a signing key is held, persist the message (status `sent`/`pending`
and method `direct`/`store-forward` by connectivity), mirror it in the
in-memory record, and when offline also queue it durably and in memory
with `attempts: 0`.  The modelled crypto is total, so the source's
catch-and-log branch is unreachable here. -/
def sendMessage (st : ProviderState) (content messageId : String) (timestamp iv : Nat) :
    SendOutcome × ProviderState :=
  match st.activeContactId, st.hasIdentity, st.encryptionKey with
  | some activeId, true, some encKey =>
    (match st.contacts.find? (fun c => c.id == activeId) with
     | none => (.silentReturn, st)
     | some contact =>
       let recipientKey := decodeKey contact.publicKey
       let encrypted := (encryptMessage content encKey recipientKey iv).1
       let signature :=
         match st.signingKey with
         | some sk => signBytes encrypted sk
         | none => ""
       let message : Message :=
         { id := messageId, contactId := activeId, content, encrypted, iv, signature,
           timestamp, direction := .sent,
           status := if st.isOnline then .sent else .pending,
           deliveryMethod := some (if st.isOnline then .direct else .storeForward) }
       let st1 :=
         { st with messagesStore := msgPut st.messagesStore message,
                   messagesMem := recordAppend st.messagesMem activeId message }
       if st.isOnline then
         (.completed, st1)
       else
         let queuedMsg : QueuedMessage :=
           { id := messageId, recipientId := contact.id,
             recipientPublicKey := contact.publicKey, encrypted, iv, signature,
             timestamp, attempts := 0, lastAttempt := none }
         (.completed,
          { st1 with queueStore := putBy (·.id) st1.queueStore queuedMsg,
                     queuedMessages := st1.queuedMessages ++ [queuedMsg] }))
  | _, _, _ => (.silentReturn, st)

/-- `processQueue` from the relay hook: a no-op unless online, with an
identity, and no drain already running (`processingRef`); otherwise it
submits each queued message to the relay once, in order, per-item
failures logged without stopping the loop.  The result is the sequence of
queued-message ids submitted to relay `send`. -/
def processQueue (isOnline hasIdentity processing : Bool)
    (queued : List QueuedMessage) : List String :=
  if !isOnline || !hasIdentity || processing then [] else queued.map (·.id)

/-- The `useEffect` on `[isOnline, queuedMessages.length]`: on a
connectivity change, if online and the queue is non-empty, run one drain
(with no drain marked running). -/
def drainOnOnline (isOnline hasIdentity : Bool) (queued : List QueuedMessage) :
    List String :=
  if isOnline && decide (0 < queued.length) then
    processQueue isOnline hasIdentity false queued
  else []

theorem connStep_mode (st : ProviderState) (e : ConnEvent) :
    (connStep st e).connectionMode =
      modeTable (connStep st e).isOnline (connStep st e).isP2PScanning := by
  cases e <;> cases hA : st.isOnline <;> cases hB : st.isP2PScanning <;>
    simp [connStep, handleOnline, handleOffline, startP2PScan, stopP2PScan,
      modeTable, hA, hB]

/-- C6 (counterexample): in the initial state with `navigator.onLine`
true, the inputs read (reachable := true, discovering := false) but the
hardcoded initial `connectionMode` is `offline`, not the `online` the
§4.4 table gives — the mode is not a pure function of the inputs before
the first input-change event. -/
theorem c6_initial_state_breaks_table :
    (initState true).isOnline = true ∧ (initState true).isP2PScanning = false ∧
    (initState true).connectionMode = .offline ∧
    modeTable (initState true).isOnline (initState true).isP2PScanning = .online ∧
    (initState true).connectionMode ≠
      modeTable (initState true).isOnline (initState true).isP2PScanning := by
  decide

/-- C6 (amended): in every state reached after at least one input-change
event — whatever the initial reachability reading and the event history —
the connection mode equals the §4.4 table applied to the current
(reachable, discovering) inputs; only the initial state, whose mode is
hardcoded `offline`, can disagree with the table. -/
theorem c6_mode_is_table_after_any_event (b : Bool) (es : List ConnEvent) (e : ConnEvent) :
    ((es ++ [e]).foldl connStep (initState b)).connectionMode =
      modeTable ((es ++ [e]).foldl connStep (initState b)).isOnline
        ((es ++ [e]).foldl connStep (initState b)).isP2PScanning := by
  rw [List.foldl_append, List.foldl_cons, List.foldl_nil]
  exact connStep_mode _ e

/-- C4 (counterexample): with identity and keys loaded and an active
contact id absent from the (empty) contact list, `sendMessage` resolves
to a silent early return: no error is signalled and the state — durable
stores included — is entirely unchanged, contradicting the claimed
observable `UnknownContactError`. -/
theorem c4_send_unknown_contact_is_silent :
    sendMessage
      { contacts := [], contactsStore := [], messagesMem := [], messagesStore := [],
        queuedMessages := [], queueStore := [], activeContactId := some "XYZ",
        hasIdentity := true, encryptionKey := some 11, signingKey := some 13,
        isOnline := true, isP2PScanning := false, connectionMode := .online }
      "hello" "m1" 0 0 =
      (.silentReturn,
       { contacts := [], contactsStore := [], messagesMem := [], messagesStore := [],
         queuedMessages := [], queueStore := [], activeContactId := some "XYZ",
         hasIdentity := true, encryptionKey := some 11, signingKey := some 13,
         isOnline := true, isP2PScanning := false, connectionMode := .online }) := by
  rfl

/-- C4 (amended): for every state whose active contact id is absent from
the in-memory contact list, `sendMessage` returns silently — no thrown
error, no persisted message, no queue entry, no state change and no other
observable signal to the caller. -/
theorem c4_send_unknown_contact_silent_noop (st : ProviderState)
    (content mid : String) (ts iv : Nat) (a : String)
    (ha : st.activeContactId = some a)
    (hfind : st.contacts.find? (fun c => c.id == a) = none) :
    sendMessage st content mid ts iv = (.silentReturn, st) := by
  cases hid : st.hasIdentity <;> cases henc : st.encryptionKey <;>
    simp [sendMessage, ha, hid, henc, hfind]

/-- C4 (witness for the amended theorem). -/
theorem c4_send_unknown_contact_silent_noop_witness :
    sendMessage
      { contacts := [], contactsStore := [], messagesMem := [], messagesStore := [],
        queuedMessages := [], queueStore := [], activeContactId := some "NOPE",
        hasIdentity := true, encryptionKey := some 3, signingKey := none,
        isOnline := false, isP2PScanning := false, connectionMode := .offline }
      "hi" "m9" 4 5 =
      (.silentReturn,
       { contacts := [], contactsStore := [], messagesMem := [], messagesStore := [],
         queuedMessages := [], queueStore := [], activeContactId := some "NOPE",
         hasIdentity := true, encryptionKey := some 3, signingKey := none,
         isOnline := false, isP2PScanning := false, connectionMode := .offline }) :=
  c4_send_unknown_contact_silent_noop _ "hi" "m9" 4 5 "NOPE" rfl rfl

/-- Number of records with a given key in a store. -/
def keyCount (key : α → String) (l : List α) (k : String) : Nat :=
  l.countP (fun x => key x == k)

theorem putBy_of_fresh (key : α → String) (store : List α) (a : α)
    (h : ∀ x ∈ store, key x ≠ key a) : putBy key store a = store ++ [a] := by
  have hany : store.any (fun x => key x == key a) = false := by
    simp only [List.any_eq_false]
    intro x hx
    simpa using h x hx
  simp [putBy, hany]

theorem putBy_of_any (key : α → String) (store : List α) (a : α)
    (h : store.any (fun x => key x == key a) = true) :
    putBy key store a = store.map (fun x => if key x == key a then a else x) := by
  simp [putBy, h]

theorem keyCount_map_put (key : α → String) (store : List α) (a : α) :
    keyCount key (store.map fun x => if key x == key a then a else x) (key a) =
      keyCount key store (key a) := by
  simp only [keyCount, List.countP_map]
  apply List.countP_congr
  intro x _
  by_cases h : key x == key a
  · simp [Function.comp, h]
  · simp [Function.comp, h]

theorem keyCount_eq_zero (key : α → String) (store : List α) (k : String)
    (h : ∀ x ∈ store, key x ≠ k) : keyCount key store k = 0 := by
  simp only [keyCount, List.countP_eq_zero]
  intro x hx
  simpa using h x hx

/-- C5 (counterexample): two `addContact` calls with the identical key
pair and name, starting from an empty provider state, leave exactly one
contact with the derived id in the durable store but two entries with
that id in the in-memory contacts list — the in-memory list is not
idempotent. -/
theorem c5_second_addContact_duplicates_in_memory :
    keyCount (·.id)
        (addContact (addContact (initState false) "PK" "SK" "Bob" 5) "PK" "SK" "Bob" 9).contacts
        (generateIdentityId "PK") = 2 ∧
    keyCount (·.id)
        (addContact (addContact (initState false) "PK" "SK" "Bob" 5) "PK" "SK" "Bob" 9).contactsStore
        (generateIdentityId "PK") = 1 := by
  decide

/-- C5 (amended): re-adding the same public key derives the same contact
id deterministically and the durable contact store (an IndexedDB put
keyed by id) ends with exactly one contact under that id; the in-memory
contacts list, however, is appended unconditionally and ends with two
entries under that id. -/
theorem c5_addContact_store_idempotent_memory_duplicated (st : ProviderState)
    (pk sk name : String) (t1 t2 : Nat)
    (hstore : ∀ c ∈ st.contactsStore, c.id ≠ generateIdentityId pk)
    (hmem : ∀ c ∈ st.contacts, c.id ≠ generateIdentityId pk) :
    keyCount (·.id) (addContact (addContact st pk sk name t1) pk sk name t2).contactsStore
        (generateIdentityId pk) = 1 ∧
    keyCount (·.id) (addContact (addContact st pk sk name t1) pk sk name t2).contacts
        (generateIdentityId pk) = 2 := by
  set gid := generateIdentityId pk with hgid
  set c1 : Contact :=
    { id := gid, publicKey := pk, signingPublicKey := sk, displayName := name,
      lastSeen := none, connectionType := some .unknown, isGateway := none,
      addedAt := t1 } with hc1
  set c2 : Contact :=
    { id := gid, publicKey := pk, signingPublicKey := sk, displayName := name,
      lastSeen := none, connectionType := some .unknown, isGateway := none,
      addedAt := t2 } with hc2
  have hput1 : putBy (·.id) st.contactsStore c1 = st.contactsStore ++ [c1] :=
    putBy_of_fresh _ _ _ (by intro x hx; simpa [hc1] using hstore x hx)
  have hany : (st.contactsStore ++ [c1]).any (fun x => x.id == c2.id) = true := by
    simp [hc1, hc2]
  have hput2 : putBy (·.id) (st.contactsStore ++ [c1]) c2 =
      (st.contactsStore ++ [c1]).map (fun x => if x.id == c2.id then c2 else x) :=
    putBy_of_any _ _ _ hany
  have hgidc2 : gid = c2.id := by simp [hc2]
  constructor
  · show keyCount (·.id) (putBy (·.id) (putBy (·.id) st.contactsStore c1) c2) gid = 1
    rw [hput1, hput2, hgidc2, keyCount_map_put (·.id) (st.contactsStore ++ [c1]) c2]
    have h0 : keyCount (·.id) st.contactsStore c2.id = 0 := by
      rw [← hgidc2]
      exact keyCount_eq_zero _ _ _ hstore
    simp only [keyCount, List.countP_append] at h0 ⊢
    simp [h0, hc1, hc2]
  · show keyCount (·.id) ((st.contacts ++ [c1]) ++ [c2]) gid = 2
    have h0 : keyCount (·.id) st.contacts gid = 0 :=
      keyCount_eq_zero _ _ _ hmem
    simp only [keyCount, List.countP_append] at h0 ⊢
    simp [h0, hc1, hc2]

/-- C5 (witness for the amended theorem). -/
theorem c5_addContact_witness :
    keyCount (·.id)
        (addContact (addContact (initState true) "pk1" "sk1" "Ann" 1) "pk1" "sk1" "Ann" 2).contactsStore
        (generateIdentityId "pk1") = 1 ∧
    keyCount (·.id)
        (addContact (addContact (initState true) "pk1" "sk1" "Ann" 1) "pk1" "sk1" "Ann" 2).contacts
        (generateIdentityId "pk1") = 2 :=
  c5_addContact_store_idempotent_memory_duplicated (initState true) "pk1" "sk1" "Ann" 1 2
    (by intro c hc; simp [initState] at hc) (by intro c hc; simp [initState] at hc)

/-- C7: sending while offline persists the message with status `pending`
and queues it under the same id with `attempts = 0` (exactly one queue
entry carries that id, the id being fresh), and the drain triggered by
the transition to online submits that item to the relay exactly once — a
drain already marked running (the `processingRef` guard) submits
nothing. -/
theorem c7_offline_send_queues_and_drains_once (st : ProviderState)
    (content messageId : String) (ts iv : Nat) (a : String) (contact : Contact)
    (k : Nat)
    (ha : st.activeContactId = some a)
    (hid : st.hasIdentity = true)
    (henc : st.encryptionKey = some k)
    (hfind : st.contacts.find? (fun c => c.id == a) = some contact)
    (hoff : st.isOnline = false)
    (hfresh : ∀ q ∈ st.queuedMessages, q.id ≠ messageId) :
    (sendMessage st content messageId ts iv).1 = .completed ∧
    (msgGet (sendMessage st content messageId ts iv).2.messagesStore messageId).map
        Message.status = some .pending ∧
    ((sendMessage st content messageId ts iv).2.queuedMessages.filter
        (fun q => q.id == messageId)).map QueuedMessage.attempts = [0] ∧
    (drainOnOnline true (sendMessage st content messageId ts iv).2.hasIdentity
        (sendMessage st content messageId ts iv).2.queuedMessages).count messageId = 1 ∧
    processQueue true (sendMessage st content messageId ts iv).2.hasIdentity true
        (sendMessage st content messageId ts iv).2.queuedMessages = [] := by
  set encrypted := (encryptMessage content k (decodeKey contact.publicKey) iv).1 with hE
  set signature := (match st.signingKey with
    | some sk => signBytes encrypted sk
    | none => "") with hS
  set message : Message :=
    { id := messageId, contactId := a, content := content, encrypted := encrypted,
      iv := iv, signature := signature, timestamp := ts, direction := .sent,
      status := .pending, deliveryMethod := some .storeForward } with hM
  set queuedMsg : QueuedMessage :=
    { id := messageId, recipientId := contact.id,
      recipientPublicKey := contact.publicKey, encrypted := encrypted, iv := iv,
      signature := signature, timestamp := ts, attempts := 0,
      lastAttempt := none } with hQ
  have hsend : sendMessage st content messageId ts iv =
      (.completed,
       { st with messagesStore := msgPut st.messagesStore message,
                 messagesMem := recordAppend st.messagesMem a message,
                 queueStore := putBy (·.id) st.queueStore queuedMsg,
                 queuedMessages := st.queuedMessages ++ [queuedMsg] }) := by
    simp [sendMessage, ha, hid, henc, hfind, hoff, hM, hQ, hS, hE]
  rw [hsend]
  refine ⟨rfl, ?_, ?_, ?_, ?_⟩
  · have h2 : msgGet (msgPut st.messagesStore message) messageId = some message := by
      have h3 := getBy_putBy_self (fun x : Message => x.id) st.messagesStore message
      simpa [msgGet, msgPut, hM] using h3
    simp [h2, hM]
  · have hfq : st.queuedMessages.filter (fun q => q.id == messageId) = [] := by
      rw [List.filter_eq_nil_iff]
      intro q hq
      simpa using hfresh q hq
    simp [List.filter_append, hfq, hQ]
  · have hc0 : (st.queuedMessages.map (fun q => q.id)).count messageId = 0 := by
      rw [List.count_eq_zero]
      intro hmem'
      obtain ⟨q, hq, hqid⟩ := List.mem_map.mp hmem'
      exact hfresh q hq hqid
    simp [drainOnOnline, processQueue, hid, hc0, hQ]
  · simp [processQueue]

/-- C7 (witness): the offline-send-then-drain property evaluated on a
concrete one-contact state. -/
theorem c7_offline_send_queues_and_drains_once_witness :
    (sendMessage
        { contacts := [{ id := "C1", publicKey := "pk", signingPublicKey := "s",
                         displayName := "Bob", lastSeen := none,
                         connectionType := some .unknown, isGateway := none, addedAt := 0 }],
          contactsStore := [], messagesMem := [], messagesStore := [],
          queuedMessages := [], queueStore := [], activeContactId := some "C1",
          hasIdentity := true, encryptionKey := some 5, signingKey := none,
          isOnline := false, isP2PScanning := false, connectionMode := .offline }
        "hello" "mid1" 3 4).1 = .completed ∧
    (msgGet (sendMessage
        { contacts := [{ id := "C1", publicKey := "pk", signingPublicKey := "s",
                         displayName := "Bob", lastSeen := none,
                         connectionType := some .unknown, isGateway := none, addedAt := 0 }],
          contactsStore := [], messagesMem := [], messagesStore := [],
          queuedMessages := [], queueStore := [], activeContactId := some "C1",
          hasIdentity := true, encryptionKey := some 5, signingKey := none,
          isOnline := false, isP2PScanning := false, connectionMode := .offline }
        "hello" "mid1" 3 4).2.messagesStore "mid1").map Message.status = some .pending ∧
    ((sendMessage
        { contacts := [{ id := "C1", publicKey := "pk", signingPublicKey := "s",
                         displayName := "Bob", lastSeen := none,
                         connectionType := some .unknown, isGateway := none, addedAt := 0 }],
          contactsStore := [], messagesMem := [], messagesStore := [],
          queuedMessages := [], queueStore := [], activeContactId := some "C1",
          hasIdentity := true, encryptionKey := some 5, signingKey := none,
          isOnline := false, isP2PScanning := false, connectionMode := .offline }
        "hello" "mid1" 3 4).2.queuedMessages.filter
        (fun q => q.id == "mid1")).map QueuedMessage.attempts = [0] ∧
    (drainOnOnline true (sendMessage
        { contacts := [{ id := "C1", publicKey := "pk", signingPublicKey := "s",
                         displayName := "Bob", lastSeen := none,
                         connectionType := some .unknown, isGateway := none, addedAt := 0 }],
          contactsStore := [], messagesMem := [], messagesStore := [],
          queuedMessages := [], queueStore := [], activeContactId := some "C1",
          hasIdentity := true, encryptionKey := some 5, signingKey := none,
          isOnline := false, isP2PScanning := false, connectionMode := .offline }
        "hello" "mid1" 3 4).2.hasIdentity (sendMessage
        { contacts := [{ id := "C1", publicKey := "pk", signingPublicKey := "s",
                         displayName := "Bob", lastSeen := none,
                         connectionType := some .unknown, isGateway := none, addedAt := 0 }],
          contactsStore := [], messagesMem := [], messagesStore := [],
          queuedMessages := [], queueStore := [], activeContactId := some "C1",
          hasIdentity := true, encryptionKey := some 5, signingKey := none,
          isOnline := false, isP2PScanning := false, connectionMode := .offline }
        "hello" "mid1" 3 4).2.queuedMessages).count "mid1" = 1 ∧
    processQueue true (sendMessage
        { contacts := [{ id := "C1", publicKey := "pk", signingPublicKey := "s",
                         displayName := "Bob", lastSeen := none,
                         connectionType := some .unknown, isGateway := none, addedAt := 0 }],
          contactsStore := [], messagesMem := [], messagesStore := [],
          queuedMessages := [], queueStore := [], activeContactId := some "C1",
          hasIdentity := true, encryptionKey := some 5, signingKey := none,
          isOnline := false, isP2PScanning := false, connectionMode := .offline }
        "hello" "mid1" 3 4).2.hasIdentity true (sendMessage
        { contacts := [{ id := "C1", publicKey := "pk", signingPublicKey := "s",
                         displayName := "Bob", lastSeen := none,
                         connectionType := some .unknown, isGateway := none, addedAt := 0 }],
          contactsStore := [], messagesMem := [], messagesStore := [],
          queuedMessages := [], queueStore := [], activeContactId := some "C1",
          hasIdentity := true, encryptionKey := some 5, signingKey := none,
          isOnline := false, isP2PScanning := false, connectionMode := .offline }
        "hello" "mid1" 3 4).2.queuedMessages = [] :=
  c7_offline_send_queues_and_drains_once _ "hello" "mid1" 3 4 "C1" _ 5
    rfl rfl rfl rfl rfl (by simp)

end BeaconChat
